import Mathlib

/-!
# Verification of the opencode-antigravity-stats quota-window engine

A shallow embedding, in Lean 4, of the quota-window reconciliation core of
the `opencode-antigravity-stats` plugin:

* `src/types.ts` — data model (`QuotaWindow`, `AccountQuotaTracking`,
  `ServerQuotaGroup`, `ServerQuotaCache`, `StatsData`, `FIVE_HOURS_MS`);
* `src/storage.ts` — `saveStats` (merge-before-write against the on-disk
  state), `cleanupOldData`, `addRateLimitEntry`, `addErrorEntry`;
* `src/collector.ts` — `getModelGroup`, the quota-window update performed
  by `StatsCollector.recordMessage`, the server-cycle reset pass of
  `StatsCollector.fetchServerQuota`, and the window side effect of
  `StatsCollector.getQuotaStatsAllGroups`.

The repository ships two generations of the collector and of the storage
layer: the TypeScript sources (`storage.ts`, `collector.ts`) and a newer
compiled v1.2.x build (`dist/storage.js`, `dist/collector.js`) in which
the poll-failure path and the read-view reset logic were changed and the
save path lost its disk merge entirely ("memory is the source of truth").
Where the two differ, both behaviours are embedded (suffix `Ts` for the
TypeScript source, `Dist` for the compiled build; `saveStatsModel` for the
merging v1.1 save, `saveStatsModelDist` for the merge-free v1.2 save) so
the theorems can say which one a property holds of.

Conventions: JavaScript numbers holding epoch-millisecond timestamps and
counters are modelled as `Int`; JSON objects used as string-keyed maps are
modelled as association lists (first binding wins, matching the single-key
semantics of JS objects); missing/`undefined` values are `Option`.
The JS falsiness of the number `0` is not modelled: timestamps in every
statement below are positive, as they are in practice (epoch-ms).
-/

namespace AntigravityStats

/-- `FIVE_HOURS_MS = 5 * 60 * 60 * 1000` from `src/types.ts`. -/
def FIVE_HOURS_MS : Int := 5 * 60 * 60 * 1000

/-- `ModelGroup` from `src/types.ts`:
`"claude" | "pro" | "flash" | "other"`. -/
inductive ModelGroup where
  | claude
  | pro
  | flash
  | other
deriving DecidableEq, Repr

/-- `QuotaWindow` from `src/types.ts`: `windowStart` (epoch ms),
`tokensUsed`, `requestsCount`. -/
structure QuotaWindow where
  windowStart : Int
  tokensUsed : Int
  requestsCount : Int
deriving DecidableEq, Repr

/-- The `windows` object of `AccountQuotaTracking`
(`{ [group in ModelGroup]?: QuotaWindow }`): one optional window per
model group. -/
structure GroupWindows where
  claude : Option QuotaWindow
  pro : Option QuotaWindow
  flash : Option QuotaWindow
  other : Option QuotaWindow
deriving DecidableEq, Repr

/-- Key-indexed read of a `GroupWindows` object (`windows[group]`). -/
def GroupWindows.get (ws : GroupWindows) : ModelGroup → Option QuotaWindow
  | .claude => ws.claude
  | .pro => ws.pro
  | .flash => ws.flash
  | .other => ws.other

/-- Key-indexed write of a `GroupWindows` object (`windows[group] = w`). -/
def GroupWindows.set (ws : GroupWindows) : ModelGroup → Option QuotaWindow → GroupWindows
  | .claude, v => { ws with claude := v }
  | .pro, v => { ws with pro := v }
  | .flash, v => { ws with flash := v }
  | .other, v => { ws with other := v }

/-- The `windows` object with no group present (`{ windows: {} }`). -/
def GroupWindows.empty : GroupWindows := ⟨none, none, none, none⟩

/-- `AccountQuotaTracking` from `src/types.ts`, restricted to its
`windows` field.  (The legacy `calibration`/`calibrations` fields that the
v1.1 `storage.ts` still carries are dead weight for every property proved
here — `saveStats` merges them on a field separate from `windows` — and
are omitted.) -/
structure AccountQuotaTracking where
  windows : GroupWindows
deriving DecidableEq, Repr

/-! ## Association lists for JSON objects used as maps -/

/-- First-binding-wins lookup in an association list, the shallow model of
reading a key of a JS object. -/
def lookupA {κ α : Type} [DecidableEq κ] : List (κ × α) → κ → Option α
  | [], _ => none
  | (k, v) :: t, e => if k = e then some v else lookupA t e

/-- Pointwise update of every binding of key `e`, the shallow model of
assigning to an existing key of a JS object. -/
def updateA {κ α : Type} [DecidableEq κ] (l : List (κ × α)) (e : κ) (v : α) :
    List (κ × α) :=
  l.map fun kv => (kv.1, if kv.1 = e then v else kv.2)

/-- In-place modification of the value at key `e`
(`obj[e] = f(obj[e])` for an existing key). -/
def modifyA {κ α : Type} [DecidableEq κ] (l : List (κ × α)) (e : κ) (f : α → α) :
    List (κ × α) :=
  l.map fun kv => (kv.1, if kv.1 = e then f kv.2 else kv.2)

/-! ## `getModelGroup` (`src/collector.ts`) -/

/-- `text` starts with `pat` (character-list level). -/
def listStartsWith : List Char → List Char → Bool
  | _, [] => true
  | [], _ :: _ => false
  | a :: as, b :: bs => a == b && listStartsWith as bs

/-- `text` contains `pat` as a contiguous run (character-list level). -/
def listIncludes : List Char → List Char → Bool
  | [], p => p.isEmpty
  | a :: as, p => listStartsWith (a :: as) p || listIncludes as p

/-- JavaScript `String.prototype.includes`. -/
def strIncludes (s pat : String) : Bool := listIncludes s.toList pat.toList

/-- JavaScript `String.prototype.toLowerCase` (ASCII, which covers every
model identifier the plugin classifies). -/
def toLowerStr (s : String) : String := String.mk (s.data.map Char.toLower)

/-- `getModelGroup` from `src/collector.ts`: only `google`-provider models
are tracked; `claude` substrings map to `claude`, `gemini`+`flash` to
`flash`, `gemini`+`pro` to `pro`, bare `gemini` defaults to `pro`,
anything else to `other`. -/
def getModelGroup (providerID modelID : String) : ModelGroup :=
  if providerID ≠ "google" then .other
  else
    let lower := toLowerStr modelID
    if strIncludes lower "claude" then .claude
    else if strIncludes lower "gemini" && strIncludes lower "flash" then .flash
    else if strIncludes lower "gemini" && strIncludes lower "pro" then .pro
    else if strIncludes lower "gemini" then .pro
    else .other

/-! ## `forceResync`: the disk/memory window merge rule

`src/storage.ts` lines 174–184 (inside `saveStats`, for a disk window that
passes the freshness gate) and `src/collector.ts` lines 300–311 (inside
`recordMessage`) both merge two copies of the same logical window by
conditional assignment: take the disk `windowStart` when it is older, and
each disk counter when it is larger.  As a pure function of the two copies
this is the `forceResync` rule of the specification. -/

/-- The merge body of `saveStats`/`recordMessage`: older `windowStart`,
larger `tokensUsed`, larger `requestsCount`, each taken independently. -/
def forceResync (mem disk : QuotaWindow) : QuotaWindow :=
  { windowStart :=
      if disk.windowStart < mem.windowStart then disk.windowStart
      else mem.windowStart
    tokensUsed :=
      if disk.tokensUsed > mem.tokensUsed then disk.tokensUsed
      else mem.tokensUsed
    requestsCount :=
      if disk.requestsCount > mem.requestsCount then disk.requestsCount
      else mem.requestsCount }

/-! ## The stats blob (`StatsData` and friends, `src/types.ts`)

Only the fields that the storage-layer claims touch are carried; `version`,
`lastUpdated`, `session.id`, `session.startedAt`, `session.byModel` and
`rpmData` play no part in any property proved here. -/

/-- `SessionTotals` from `src/types.ts`. -/
structure SessionTotals where
  requests : Int
  tokensIn : Int
  tokensOut : Int
  cacheRead : Int
  cacheWrite : Int
  errors : Int
deriving DecidableEq, Repr

/-- `RateLimitEntry` from `src/types.ts`.  `timestamp` and `resetTime` are
ISO strings in the source and stay strings here, since
`cleanupOldData` compares them lexicographically. -/
structure RateLimitEntry where
  timestamp : String
  account : String
  resetTime : String
  rpm : Option Int
deriving DecidableEq, Repr

/-- `ErrorEntry` from `src/types.ts`. -/
structure ErrorEntry where
  timestamp : String
  code : Int
  model : String
  message : String
deriving DecidableEq, Repr

/-- `RateLimitStats` from `src/types.ts`. -/
structure RateLimitStats where
  total : Int
  history : List RateLimitEntry
deriving DecidableEq, Repr

/-- `ErrorStats` from `src/types.ts`; `byCode` is a numeric-keyed object. -/
structure ErrorStats where
  total : Int
  byCode : List (Int × Int)
  history : List ErrorEntry
deriving DecidableEq, Repr

/-- `DailyAccountStats` from `src/types.ts`. -/
structure DailyAccountStats where
  requests : Int
  rateLimits : Int
deriving DecidableEq, Repr

/-- `DailyModelStats` from `src/types.ts`. -/
structure DailyModelStats where
  requests : Int
  tokensIn : Int
  tokensOut : Int
deriving DecidableEq, Repr

/-- `DailyStats` from `src/types.ts`. -/
structure DailyStats where
  requests : Int
  tokensIn : Int
  tokensOut : Int
  rateLimits : Int
  errors : Int
  byModel : List (String × DailyModelStats)
  byAccount : List (String × DailyAccountStats)
deriving DecidableEq, Repr

/-- `StatsData` from `src/types.ts` (fields relevant to the claims).
`daily` is keyed by `YYYY-MM-DD` strings, `quotaTracking` by account
email; an absent optional `quotaTracking` is the empty list. -/
structure StatsData where
  session : SessionTotals
  rateLimits : RateLimitStats
  errors : ErrorStats
  daily : List (String × DailyStats)
  quotaTracking : List (String × AccountQuotaTracking)
deriving DecidableEq, Repr

/-- The `DailyStats` literal `ensureDailyStats` creates for a fresh day. -/
def emptyDailyStats : DailyStats := ⟨0, 0, 0, 0, 0, [], []⟩

/-- `ensureDailyStats` from `src/storage.ts`, acting on the `daily` map:
if today's bucket is missing it is created zeroed. -/
def ensureDailyStatsMap (daily : List (String × DailyStats)) (today : String) :
    List (String × DailyStats) :=
  if (lookupA daily today).isSome then daily else daily ++ [(today, emptyDailyStats)]

/-- The `byAccount` update of `addRateLimitEntry`: create the account
bucket when missing, then `rateLimits++`. -/
def bumpAccountRateLimit (byAccount : List (String × DailyAccountStats))
    (account : String) : List (String × DailyAccountStats) :=
  let ensured :=
    if (lookupA byAccount account).isSome then byAccount
    else byAccount ++ [(account, ⟨0, 0⟩)]
  modifyA ensured account fun a => { a with rateLimits := a.rateLimits + 1 }

/-- `addRateLimitEntry` from `src/storage.ts` (`today` stands for
`getTodayKey()`): bump the total, `unshift` the entry, truncate the
history to 50 when it exceeds 50, then bump today's daily and per-account
rate-limit counters. -/
def addRateLimitEntry (today : String) (stats : StatsData)
    (entry : RateLimitEntry) : StatsData :=
  let history := entry :: stats.rateLimits.history
  let history := if history.length > 50 then history.take 50 else history
  let daily := ensureDailyStatsMap stats.daily today
  let daily := modifyA daily today fun d =>
    { d with rateLimits := d.rateLimits + 1
             byAccount := bumpAccountRateLimit d.byAccount entry.account }
  { stats with
      rateLimits := ⟨stats.rateLimits.total + 1, history⟩
      daily := daily }

/-- The `byCode` update of `addErrorEntry`:
`byCode[code] = (byCode[code] || 0) + 1`. -/
def bumpErrorCode (byCode : List (Int × Int)) (code : Int) : List (Int × Int) :=
  match lookupA byCode code with
  | some n => updateA byCode code (n + 1)
  | none => byCode ++ [(code, 1)]

/-- `addErrorEntry` from `src/storage.ts` (`today` stands for
`getTodayKey()`): bump totals and the per-code counter, `unshift` the
entry, truncate the history to 50 when it exceeds 50, bump today's daily
error counter and the session error total. -/
def addErrorEntry (today : String) (stats : StatsData) (entry : ErrorEntry) :
    StatsData :=
  let history := entry :: stats.errors.history
  let history := if history.length > 50 then history.take 50 else history
  let daily := ensureDailyStatsMap stats.daily today
  let daily := modifyA daily today fun d => { d with errors := d.errors + 1 }
  { stats with
      errors := ⟨stats.errors.total + 1, bumpErrorCode stats.errors.byCode entry.code,
                 history⟩
      daily := daily
      session := { stats.session with errors := stats.session.errors + 1 } }

/-- `cleanupOldData` from `src/storage.ts`.  `cutoffKey` stands for the
`YYYY-MM-DD` key of seven days before today and `cutoffTimestamp` for the
matching ISO instant; the source compares both lexicographically.  Daily
buckets with keys strictly below the cutoff are deleted and both history
lists are filtered to entries with `timestamp >= cutoffTimestamp`. -/
def cleanupOldData (cutoffKey cutoffTimestamp : String) (stats : StatsData) :
    StatsData :=
  { stats with
      daily := stats.daily.filter fun kv => ¬ kv.1 < cutoffKey
      rateLimits := { stats.rateLimits with
        history := stats.rateLimits.history.filter fun e =>
          cutoffTimestamp ≤ e.timestamp }
      errors := { stats.errors with
        history := stats.errors.history.filter fun e =>
          cutoffTimestamp ≤ e.timestamp } }

/-! ## `saveStats` (`src/storage.ts`): merge-before-write -/

/-- The per-group merge decision of `saveStats` (lines 166–196): a disk
window is consulted only when it is still valid (strictly less than five
hours old at save time).  A fresh disk window is merged into a present
memory window by `forceResync`, adopted wholesale when memory has no
window for the group, and a stale disk window is ignored in both cases. -/
def mergeWindowSlot (now : Int) (memSlot diskSlot : Option QuotaWindow) :
    Option QuotaWindow :=
  match diskSlot with
  | none => memSlot
  | some d =>
    match memSlot with
    | some m =>
      if now - d.windowStart < FIVE_HOURS_MS then some (forceResync m d) else some m
    | none =>
      if now - d.windowStart < FIVE_HOURS_MS then some d else none

/-- The whole-`windows`-object merge of `saveStats`: the per-group
decision applied to each of the four group keys (groups absent from disk
are left as memory has them). -/
def mergeWindowsDisk (now : Int) (mem disk : GroupWindows) : GroupWindows :=
  ⟨mergeWindowSlot now mem.claude disk.claude,
   mergeWindowSlot now mem.pro disk.pro,
   mergeWindowSlot now mem.flash disk.flash,
   mergeWindowSlot now mem.other disk.other⟩

/-- The `quotaTracking` reconciliation of `saveStats` (lines 141–204):
accounts present in memory keep their position and have their windows
merged against the disk copy when one exists; accounts present only on
disk are carried through unmodified, appended after the in-memory ones. -/
def mergeQuotaTracking (now : Int)
    (mem disk : List (String × AccountQuotaTracking)) :
    List (String × AccountQuotaTracking) :=
  (mem.map fun kv =>
    match lookupA disk kv.1 with
    | some dt => (kv.1, AccountQuotaTracking.mk (mergeWindowsDisk now kv.2.windows dt.windows))
    | none => kv)
  ++ disk.filter fun kv => (lookupA mem kv.1).isNone

/-- `saveStats` from `src/storage.ts` as a function from the in-memory
stats and the re-read on-disk stats to the blob written out: prune old
data, then — when the stats file exists and parses — reconcile
`quotaTracking` against the disk copy.  (`disk = none` covers both a
missing file and a parse failure, where the merge block is skipped.) -/
def saveStatsModel (now : Int) (cutoffKey cutoffTimestamp : String)
    (mem : StatsData) (disk : Option StatsData) : StatsData :=
  let s := cleanupOldData cutoffKey cutoffTimestamp mem
  match disk with
  | none => s
  | some d => { s with quotaTracking := mergeQuotaTracking now s.quotaTracking d.quotaTracking }

/-- `saveStats` of the newer compiled build (`dist/storage.js`, the
v1.2.x line: "La memoria es la fuente de verdad — simplemente guardamos
lo que hay en memoria"): prune old data and write the in-memory stats
wholesale.  There is no disk re-read and no merge, so the written blob is
a function of the in-memory state alone — the on-disk state it replaces
does not appear as an input at all. -/
def saveStatsModelDist (cutoffKey cutoffTimestamp : String)
    (mem : StatsData) : StatsData :=
  cleanupOldData cutoffKey cutoffTimestamp mem

/-! ## `recordMessage`: the quota-window update (`src/collector.ts`)

Lines 249–315 of `collector.ts` (identically compiled in
`dist/collector.js`).  Given the in-memory window for the active
(account, group), the window re-read from disk, the token total of the
message and the current instant, the code computes the effective window
start (the older of the two copies), replaces the window when that start
is *strictly* more than five hours old, adopts-and-accumulates a valid
disk-only window, and otherwise syncs against disk and accumulates. -/

/-- The quota-window update performed by `StatsCollector.recordMessage`
for one `(account, group)` slot.  `memW` is the in-memory window, `diskW`
the one re-read from disk, `tokens = tokensIn + tokensOut`. -/
def updateQuotaWindow (memW diskW : Option QuotaWindow) (tokens now : Int) :
    QuotaWindow :=
  let effectiveWindowStart :=
    let base := match memW with
      | some w => w.windowStart
      | none => now
    match diskW with
    | some d => if d.windowStart < base then d.windowStart else base
    | none => base
  let windowAge := now - effectiveWindowStart
  if windowAge > FIVE_HOURS_MS then
    -- expired window: create a fresh one
    ⟨now, tokens, 1⟩
  else
    match memW with
    | none =>
      match diskW with
      | some d =>
        if now - d.windowStart < FIVE_HOURS_MS then
          -- adopt the still-valid disk window and accumulate on it
          ⟨d.windowStart, d.tokensUsed + tokens, d.requestsCount + 1⟩
        else
          ⟨now, tokens, 1⟩
      | none => ⟨now, tokens, 1⟩
    | some m =>
      -- sync with disk when disk has more, then accumulate the request
      let synced := match diskW with
        | some d => forceResync m d
        | none => m
      ⟨synced.windowStart, synced.tokensUsed + tokens, synced.requestsCount + 1⟩

/-! ## The server-quota poller (`fetchServerQuota`) -/

/-- `ServerQuotaGroup` from `src/types.ts`.  `reset_time` is an ISO string
in the source, converted by `new Date(...).getTime()` before use; it is
modelled directly as the parsed epoch-ms instant, `none` when the field is
empty or missing. -/
structure ServerQuotaGroup where
  name : String
  remaining_percent : Int
  reset_time : Option Int
  time_until_reset : String
deriving DecidableEq, Repr

/-- The plugin-format `ServerQuotaCache` built by `fetchServerQuota`:
fetch instant, active account email, per-group quota list, and the
staleness flag (`isFromCache`). -/
structure ServerQuotaCache where
  timestamp : Int
  email : String
  groups : List ServerQuotaGroup
  isFromCache : Bool
deriving DecidableEq, Repr

/-- The JSON document a successful `quota --json` run parses to.
Optional fields mirror `data.email || ""`, `data.groups || []`,
`data.is_cached || false` and the `available` sentinel checked only by the
compiled build. -/
structure QuotaJson where
  email : Option String
  groups : Option (List ServerQuotaGroup)
  is_cached : Option Bool
  available : Option Bool
deriving DecidableEq, Repr

/-- Outcome of one external `quota --json` invocation, as distinguished by
the code: the command failed or timed out, it produced no output, it
produced output that is not valid JSON, or it parsed. -/
inductive PollOutcome where
  | execError
  | emptyStdout
  | parseError
  | parsed (j : QuotaJson)
deriving DecidableEq, Repr

/-- The collector state the poller touches: the cached server snapshot and
the per-account quota tracking. -/
structure CollectorQuotaState where
  cache : Option ServerQuotaCache
  quotaTracking : List (String × AccountQuotaTracking)
deriving DecidableEq, Repr

/-- `serverGroupMap` from `fetchServerQuota`: server group names to local
model groups. -/
def serverGroupMap (name : String) : Option ModelGroup :=
  if name = "Claude" then some .claude
  else if name = "Gemini 3 Pro" then some .pro
  else if name = "Gemini 3 Flash" then some .flash
  else none

/-- The server-cycle comparison of `fetchServerQuota`: with
`serverCycleStart = reset_time − FIVE_HOURS_MS`, a window that started
strictly before the server's current cycle is reset to
`(serverCycleStart, 0, 0)`; otherwise it is untouched. -/
def applyServerReset (w : QuotaWindow) (resetTime : Int) : QuotaWindow :=
  if w.windowStart < resetTime - FIVE_HOURS_MS then
    ⟨resetTime - FIVE_HOURS_MS, 0, 0⟩
  else w

/-- One iteration of the reset loop of `fetchServerQuota`: skip unmapped
group names, groups without a local window, and groups without a
`reset_time`; otherwise apply the cycle comparison to the local window. -/
def applyGroupReset (ws : GroupWindows) (sg : ServerQuotaGroup) : GroupWindows :=
  match serverGroupMap sg.name with
  | none => ws
  | some g =>
    match ws.get g, sg.reset_time with
    | some w, some r => ws.set g (some (applyServerReset w r))
    | _, _ => ws

/-- The whole reset loop of `fetchServerQuota`, over every group the
server reported. -/
def applyServerResets (ws : GroupWindows) (gs : List ServerQuotaGroup) :
    GroupWindows :=
  gs.foldl applyGroupReset ws

/-- The success path shared by both generations of `fetchServerQuota`:
replace the cached snapshot wholesale and, when the reported email is
non-empty and locally tracked, run the reset loop over that account's
windows. -/
def fetchQuotaSuccess (now : Int) (st : CollectorQuotaState) (j : QuotaJson) :
    CollectorQuotaState :=
  let cache : ServerQuotaCache :=
    ⟨now, j.email.getD "", (j.groups.getD []).map id, j.is_cached.getD false⟩
  let quotaTracking :=
    match j.email with
    | some e =>
      if e = "" then st.quotaTracking
      else
        match lookupA st.quotaTracking e with
        | some t =>
          updateA st.quotaTracking e
            (AccountQuotaTracking.mk (applyServerResets t.windows (j.groups.getD [])))
        | none => st.quotaTracking
    | none => st.quotaTracking
  ⟨some cache, quotaTracking⟩

/-- Marking the snapshot stale: `this.serverQuotaCache.isFromCache = true`. -/
def markStale (c : ServerQuotaCache) : ServerQuotaCache :=
  { c with isFromCache := true }

/-- `fetchServerQuota` of the TypeScript source (`collector.ts` lines
604–670).  Empty output and malformed output both make `JSON.parse`
throw, landing in the `catch`, which keeps an existing snapshot but marks
it `isFromCache = true`; there is no `available` check, so an explicit
unavailable response is processed as an ordinary successful snapshot. -/
def fetchServerQuotaTs (now : Int) (st : CollectorQuotaState)
    (p : PollOutcome) : CollectorQuotaState :=
  match p with
  | .parsed j => fetchQuotaSuccess now st j
  | _ => { st with cache := st.cache.map markStale }

/-- `fetchServerQuota` of the compiled build (`dist/collector.js`, part of
the v1.2.x line): blank output returns early with the cache cleared, an
explicit `available: false` response clears the cache, and the `catch`
(command error, timeout, malformed JSON) clears the cache as well. -/
def fetchServerQuotaDist (now : Int) (st : CollectorQuotaState)
    (p : PollOutcome) : CollectorQuotaState :=
  match p with
  | .parsed j =>
    if j.available = some false then { st with cache := none }
    else fetchQuotaSuccess now st j
  | _ => { st with cache := none }

/-! ## The window side effect of `getQuotaStatsAllGroups` -/

/-- The effect of the TypeScript `StatsCollector.getQuotaStatsAllGroups`
(`collector.ts` lines 790–835) on the active group's window: when the
cached server snapshot carries a `reset_time` whose cycle start postdates
the window's start, the *read* path rewrites the window to
`(serverCycleStart, 0, 0)` and schedules a debounced save.  Returns the
window after the call and whether a save was scheduled. -/
def getQuotaStatsAllGroupsWindowTs (w : QuotaWindow)
    (serverResetTime : Option Int) : QuotaWindow × Bool :=
  match serverResetTime with
  | some r =>
    let serverCycleStart := r - FIVE_HOURS_MS
    if w.windowStart < serverCycleStart then (⟨serverCycleStart, 0, 0⟩, true)
    else (w, false)
  | none => (w, false)

/-- The same read path in the compiled build (`dist/collector.js`), where
the reset logic was removed ("READ ONLY — la lógica de reset está en
fetchServerQuota"): the window is returned untouched and no save is
scheduled. -/
def getQuotaStatsAllGroupsWindowDist (w : QuotaWindow)
    (_serverResetTime : Option Int) : QuotaWindow × Bool :=
  (w, false)

/-! ## Helper lemmas -/

theorem lookupA_append_left {κ α : Type} [DecidableEq κ] {a b : List (κ × α)}
    {e : κ} {v : α} (h : lookupA a e = some v) : lookupA (a ++ b) e = some v := by
  induction a with
  | nil => simp [lookupA] at h
  | cons kv t ih =>
    obtain ⟨k, w⟩ := kv
    by_cases hk : k = e
    · subst hk
      simp [lookupA] at h ⊢
      exact h
    · simp [lookupA, hk] at h ⊢
      exact ih h

theorem lookupA_append_right {κ α : Type} [DecidableEq κ] {a : List (κ × α)}
    (b : List (κ × α)) {e : κ} (h : lookupA a e = none) :
    lookupA (a ++ b) e = lookupA b e := by
  induction a with
  | nil => rfl
  | cons kv t ih =>
    obtain ⟨k, w⟩ := kv
    by_cases hk : k = e
    · subst hk
      simp [lookupA] at h
    · simp [lookupA, hk] at h ⊢
      exact ih h

theorem lookupA_updateA_some {κ α : Type} [DecidableEq κ] {l : List (κ × α)}
    {e : κ} {t : α} (v : α) (h : lookupA l e = some t) :
    lookupA (updateA l e v) e = some v := by
  induction l with
  | nil => simp [lookupA] at h
  | cons kv tl ih =>
    obtain ⟨k, w⟩ := kv
    by_cases hk : k = e
    · subst hk
      simp [updateA, lookupA]
    · simp [lookupA, hk] at h
      simpa [updateA, lookupA, hk] using ih h

/-- Looking up in the memory-side map of `mergeQuotaTracking`: the merge
is applied pointwise at the looked-up key. -/
theorem lookupA_merge_map (now : Int)
    (mem disk : List (String × AccountQuotaTracking)) (e : String) :
    lookupA (mem.map fun kv =>
      match lookupA disk kv.1 with
      | some dt => (kv.1, AccountQuotaTracking.mk (mergeWindowsDisk now kv.2.windows dt.windows))
      | none => kv) e
    = (lookupA mem e).map fun mt =>
        match lookupA disk e with
        | some dt => AccountQuotaTracking.mk (mergeWindowsDisk now mt.windows dt.windows)
        | none => mt := by
  induction mem with
  | nil => rfl
  | cons kv t ih =>
    obtain ⟨k, v⟩ := kv
    by_cases hk : k = e
    · subst hk
      cases hdt : lookupA disk k <;> simp [lookupA, hdt]
    · cases hdt : lookupA disk k <;> simp [lookupA, hk, hdt] <;> exact ih

/-- Filtering disk entries to those whose key is unknown to memory keeps
every binding of a key unknown to memory, so lookups of such keys are
unchanged. -/
theorem lookupA_filter_unknown (mem disk : List (String × AccountQuotaTracking))
    {e : String} (h : lookupA mem e = none) :
    lookupA (disk.filter fun kv => (lookupA mem kv.1).isNone) e =
      lookupA disk e := by
  induction disk with
  | nil => rfl
  | cons kv t ih =>
    obtain ⟨k, v⟩ := kv
    by_cases hk : k = e
    · subst hk
      simp [List.filter, lookupA, h]
    · by_cases hp : (lookupA mem k).isNone <;>
        simp [List.filter, lookupA, hk, hp, ih]

theorem cleanupOldData_quotaTracking (ck ct : String) (s : StatsData) :
    (cleanupOldData ck ct s).quotaTracking = s.quotaTracking := rfl

theorem saveStatsModelDist_quotaTracking (ck ct : String) (s : StatsData) :
    (saveStatsModelDist ck ct s).quotaTracking = s.quotaTracking := rfl

/-- The merged `quotaTracking` at a key present in memory. -/
theorem lookupA_mergeQuotaTracking_mem (now : Int)
    {mem disk : List (String × AccountQuotaTracking)} {e : String}
    {mt : AccountQuotaTracking} (h : lookupA mem e = some mt) :
    lookupA (mergeQuotaTracking now mem disk) e =
      some (match lookupA disk e with
        | some dt => AccountQuotaTracking.mk (mergeWindowsDisk now mt.windows dt.windows)
        | none => mt) := by
  unfold mergeQuotaTracking
  apply lookupA_append_left
  rw [lookupA_merge_map, h]
  rfl

/-- The merged `quotaTracking` at a key absent from memory: the disk
tracking object is carried through unmodified. -/
theorem lookupA_mergeQuotaTracking_disk (now : Int)
    {mem disk : List (String × AccountQuotaTracking)} {e : String}
    (h : lookupA mem e = none) :
    lookupA (mergeQuotaTracking now mem disk) e = lookupA disk e := by
  unfold mergeQuotaTracking
  rw [lookupA_append_right _ (by rw [lookupA_merge_map, h]; rfl)]
  exact lookupA_filter_unknown mem disk h

theorem GroupWindows.get_set_self (ws : GroupWindows) (g : ModelGroup)
    (v : Option QuotaWindow) : (ws.set g v).get g = v := by
  cases g <;> rfl

theorem GroupWindows.get_set_of_ne (ws : GroupWindows) {g g' : ModelGroup}
    (v : Option QuotaWindow) (h : g' ≠ g) : (ws.set g v).get g' = ws.get g' := by
  cases g <;> cases g' <;> first | rfl | exact absurd rfl h

theorem mergeWindowsDisk_get (now : Int) (mem disk : GroupWindows)
    (g : ModelGroup) :
    (mergeWindowsDisk now mem disk).get g =
      mergeWindowSlot now (mem.get g) (disk.get g) := by
  cases g <;> rfl

theorem applyGroupReset_get_of_not_mapped {sg : ServerQuotaGroup}
    {g : ModelGroup} (ws : GroupWindows) (h : serverGroupMap sg.name ≠ some g) :
    (applyGroupReset ws sg).get g = ws.get g := by
  unfold applyGroupReset
  cases hm : serverGroupMap sg.name with
  | none => rfl
  | some g' =>
    have hg : g ≠ g' := fun he => h (he ▸ hm)
    cases hw : ws.get g' <;> cases hr : sg.reset_time <;>
      simp [hw, hr, GroupWindows.get_set_of_ne ws _ hg]

theorem applyGroupReset_get_self {sg : ServerQuotaGroup} {g : ModelGroup}
    {r : Int} {w : QuotaWindow} (ws : GroupWindows)
    (hm : serverGroupMap sg.name = some g) (hr : sg.reset_time = some r)
    (hw : ws.get g = some w) :
    (applyGroupReset ws sg).get g = some (applyServerReset w r) := by
  unfold applyGroupReset
  rw [hm]
  show (match ws.get g, sg.reset_time with
        | some w, some r => ws.set g (some (applyServerReset w r))
        | _, _ => ws).get g = some (applyServerReset w r)
  rw [hw, hr]
  exact GroupWindows.get_set_self ws g _

theorem applyServerReset_idem (w : QuotaWindow) (r : Int) :
    applyServerReset (applyServerReset w r) r = applyServerReset w r := by
  unfold applyServerReset
  split_ifs <;> simp_all

theorem applyServerResets_get_of_not_mapped {g : ModelGroup} :
    ∀ (gs : List ServerQuotaGroup) (ws : GroupWindows),
    (∀ sg ∈ gs, serverGroupMap sg.name ≠ some g) →
    (applyServerResets ws gs).get g = ws.get g := by
  intro gs
  induction gs with
  | nil => intro ws _; rfl
  | cons hd t ih =>
    intro ws h
    show (applyServerResets (applyGroupReset ws hd) t).get g = _
    rw [ih _ fun sg hs => h sg (List.mem_cons_of_mem hd hs),
        applyGroupReset_get_of_not_mapped ws (h hd (List.mem_cons_self hd t))]

/-- Once the looked-at group already holds the reset image of `w`, the
remaining iterations of the reset loop leave it there (the reset is
idempotent and, by the uniqueness hypothesis, only `sg` targets `g`). -/
theorem applyServerResets_get_preserved {sg : ServerQuotaGroup}
    {g : ModelGroup} {r : Int} {w : QuotaWindow}
    (hm : serverGroupMap sg.name = some g) (hr : sg.reset_time = some r) :
    ∀ (gs : List ServerQuotaGroup) (ws : GroupWindows),
    (∀ sg' ∈ gs, serverGroupMap sg'.name = some g → sg' = sg) →
    ws.get g = some (applyServerReset w r) →
    (applyServerResets ws gs).get g = some (applyServerReset w r) := by
  intro gs
  induction gs with
  | nil => intro ws _ hw; exact hw
  | cons hd t ih =>
    intro ws huniq hw
    show (applyServerResets (applyGroupReset ws hd) t).get g = _
    by_cases hh : serverGroupMap hd.name = some g
    · have hhd : hd = sg := huniq hd (List.mem_cons_self hd t) hh
      subst hhd
      refine ih _ (fun sg' hs => huniq sg' (List.mem_cons_of_mem hd hs)) ?_
      rw [applyGroupReset_get_self ws hh hr hw, applyServerReset_idem]
    · refine ih _ (fun sg' hs => huniq sg' (List.mem_cons_of_mem hd hs)) ?_
      rw [applyGroupReset_get_of_not_mapped ws hh]
      exact hw

/-- The reset loop, at a group `g` that exactly one reported server group
`sg` targets: the local window goes through the cycle comparison. -/
theorem applyServerResets_get_main {sg : ServerQuotaGroup} {g : ModelGroup}
    {r : Int} {w : QuotaWindow}
    (hm : serverGroupMap sg.name = some g) (hr : sg.reset_time = some r) :
    ∀ (gs : List ServerQuotaGroup) (ws : GroupWindows), sg ∈ gs →
    (∀ sg' ∈ gs, serverGroupMap sg'.name = some g → sg' = sg) →
    ws.get g = some w →
    (applyServerResets ws gs).get g = some (applyServerReset w r) := by
  intro gs
  induction gs with
  | nil => intro ws hin _ _; exact absurd hin (List.not_mem_nil sg)
  | cons hd t ih =>
    intro ws hin huniq hw
    show (applyServerResets (applyGroupReset ws hd) t).get g = _
    by_cases hh : serverGroupMap hd.name = some g
    · have hhd : hd = sg := huniq hd (List.mem_cons_self hd t) hh
      subst hhd
      refine applyServerResets_get_preserved hm hr _ _
        (fun sg' hs => huniq sg' (List.mem_cons_of_mem hd hs)) ?_
      rw [applyGroupReset_get_self ws hh hr hw]
    · rcases List.mem_cons.mp hin with rfl | hin'
      · exact absurd hm hh
      · refine ih _ hin' (fun sg' hs => huniq sg' (List.mem_cons_of_mem hd hs)) ?_
        rw [applyGroupReset_get_of_not_mapped ws hh]
        exact hw

/-! ## Claim C4 — `forceResync` merge rule and commutativity -/

/-- C4: merging two copies of the same logical window takes the older
`windowStart` and, independently, the larger `tokensUsed` and the larger
`requestsCount`; the merged counters are never smaller than either input's
and the merge is order-independent: `forceResync A B = forceResync B A`. -/
theorem forceResync_merge_commutes (A B : QuotaWindow) :
    (forceResync A B).windowStart = min A.windowStart B.windowStart ∧
    (forceResync A B).tokensUsed = max A.tokensUsed B.tokensUsed ∧
    (forceResync A B).requestsCount = max A.requestsCount B.requestsCount ∧
    A.tokensUsed ≤ (forceResync A B).tokensUsed ∧
    B.tokensUsed ≤ (forceResync A B).tokensUsed ∧
    A.requestsCount ≤ (forceResync A B).requestsCount ∧
    B.requestsCount ≤ (forceResync A B).requestsCount ∧
    forceResync A B = forceResync B A := by
  obtain ⟨a1, a2, a3⟩ := A
  obtain ⟨b1, b2, b3⟩ := B
  simp only [forceResync, QuotaWindow.mk.injEq]
  refine ⟨?_, ?_, ?_, ?_, ?_, ?_, ?_, ?_, ?_, ?_⟩ <;> split_ifs <;> omega

/-! ## Claim C8 — model-group classification -/

/-- C8: the classification from (provider, model identifier) to model
group is a pure function with
`getModelGroup "google" "gemini-3-flash-preview" = flash`,
`getModelGroup "anthropic" "claude-3" = other`,
`getModelGroup "google" "gemini-3-pro-high" = pro`, and every non-google
provider mapping to `other`. -/
theorem getModelGroup_classification :
    getModelGroup "google" "gemini-3-flash-preview" = .flash ∧
    getModelGroup "anthropic" "claude-3" = .other ∧
    getModelGroup "google" "gemini-3-pro-high" = .pro ∧
    (∀ p m : String, p ≠ "google" → getModelGroup p m = .other) := by
  refine ⟨by decide, by decide, by decide, fun p m hp => ?_⟩
  unfold getModelGroup
  rw [if_pos hp]

/-- Witness for C8: the non-google clause applied at a concrete provider. -/
theorem getModelGroup_classification_witness :
    ("anthropic" : String) ≠ "google" ∧
      getModelGroup "anthropic" "gemini-ultra" = .other :=
  ⟨by decide, getModelGroup_classification.2.2.2 "anthropic" "gemini-ultra" (by decide)⟩

/-! ## Claim C6 — the read view is not pure in the TypeScript collector -/

/-- C6 (code bug, evaluated at the failing input): with a window
`(windowStart 0, tokensUsed 450, requestsCount 3)` for the active group
and a cached server `reset_time` of six hours (epoch ms), the TypeScript
`getQuotaStatsAllGroups` — a read view — rewrites the window to the
server-cycle start with zeroed counters and schedules a persist, so the
collector state is *not* unchanged by the read; the compiled build's
version of the same read leaves every window untouched and schedules
nothing. -/
theorem getQuotaStatsAllGroups_read_resets_window :
    getQuotaStatsAllGroupsWindowTs ⟨0, 450, 3⟩ (some (FIVE_HOURS_MS + 3600000)) =
      (⟨3600000, 0, 0⟩, true) ∧
    (getQuotaStatsAllGroupsWindowTs ⟨0, 450, 3⟩
      (some (FIVE_HOURS_MS + 3600000))).1 ≠ ⟨0, 450, 3⟩ ∧
    (∀ w r, getQuotaStatsAllGroupsWindowDist w r = (w, false)) :=
  ⟨by decide, by decide, fun _ _ => rfl⟩

/-! ## Claim C5 — poll-failure handling -/

/-- Failed-poll state for C5's counterexample: a fresh snapshot is
cached. -/
def exCache5 : ServerQuotaCache := ⟨0, "a@x.com", [], false⟩

/-- Collector quota state holding `exCache5`. -/
def exState5 : CollectorQuotaState := ⟨some exCache5, []⟩

/-- C5 (counterexample): in the TypeScript collector a failed poll does
*not* set the cached snapshot to the no-data state — with a snapshot
present, the failure path returns it retained with `isFromCache := true`,
which is distinct from `none`. -/
theorem fetchServerQuota_failure_counterexample :
    (fetchServerQuotaTs 99 exState5 .execError).cache =
      some ⟨0, "a@x.com", [], true⟩ ∧
    (fetchServerQuotaTs 99 exState5 .execError).cache ≠ none := by
  refine ⟨rfl, ?_⟩
  decide

/-- C5 (amended): on a poll that errors, times out, or yields empty or
malformed output, the compiled build discards the snapshot to the no-data
state (as it also does on an explicit `available: false` response), while
the TypeScript collector instead retains the snapshot marked stale
(`isFromCache := true`) when one is present and keeps the no-data state
when none is; in both, the local quota windows are untouched by the
failure path and the poll operation is a total function of the outcome,
so no error propagates and one failed poll cannot cancel later polls.
Callers distinguish no data (`none`), cached-stale data
(`isFromCache = true`) and fresh data (`isFromCache = false`). -/
theorem fetchServerQuota_failure_handling :
    ∀ (now : Int) (st : CollectorQuotaState),
      ((fetchServerQuotaDist now st .execError).cache = none ∧
       (fetchServerQuotaDist now st .emptyStdout).cache = none ∧
       (fetchServerQuotaDist now st .parseError).cache = none ∧
       (∀ e gs c, (fetchServerQuotaDist now st
          (.parsed ⟨e, gs, c, some false⟩)).cache = none)) ∧
      ((fetchServerQuotaTs now st .execError).cache = st.cache.map markStale ∧
       (fetchServerQuotaTs now st .emptyStdout).cache = st.cache.map markStale ∧
       (fetchServerQuotaTs now st .parseError).cache = st.cache.map markStale) ∧
      ((fetchServerQuotaTs now st .execError).quotaTracking = st.quotaTracking ∧
       (fetchServerQuotaDist now st .execError).quotaTracking = st.quotaTracking) ∧
      (∀ c : ServerQuotaCache, (markStale c).isFromCache = true ∧
        (markStale c).email = c.email ∧ (markStale c).groups = c.groups) := by
  intro now st
  refine ⟨⟨rfl, rfl, rfl, fun e gs c => ?_⟩, ⟨rfl, rfl, rfl⟩, ⟨rfl, rfl⟩,
    fun c => ⟨rfl, rfl, rfl⟩⟩
  simp [fetchServerQuotaDist]

/-! ## Claim C1 — disk-never-regresses on save (with the freshness gate) -/

/-- In-memory stats for C1's counterexample: account `a@x.com` with a
recent claude window holding 100 tokens over 7 requests. -/
def exMem1 : StatsData :=
  ⟨⟨0, 0, 0, 0, 0, 0⟩, ⟨0, []⟩, ⟨0, [], []⟩, [],
   [("a@x.com", ⟨⟨some ⟨1000, 100, 7⟩, none, none, none⟩⟩)]⟩

/-- On-disk stats for C1's counterexample: the same account and group with
a window that advanced further (150 tokens, 9 requests) but started at
epoch-ms 10, exactly five hours before the save instant. -/
def exDisk1 : StatsData :=
  ⟨⟨0, 0, 0, 0, 0, 0⟩, ⟨0, []⟩, ⟨0, [], []⟩, [],
   [("a@x.com", ⟨⟨some ⟨10, 150, 9⟩, none, none, none⟩⟩)]⟩

/-- C1 (counterexample): the claim's unqualified "persisted counters are
at least the disk values" fails in both shipped generations of
`saveStats`.  In the v1.1 `storage.ts`, at save instant
`FIVE_HOURS_MS + 10` the disk window of `exDisk1` is exactly five hours
old, so the merge ignores it and persists the in-memory 100/7 — strictly
below the disk's 150/9 — even though the window is present both in memory
and on disk.  In the newer dist build, which re-reads nothing and writes
memory wholesale, the persisted window is the in-memory 100/7 no matter
what the disk (here `exDisk1` with 150/9) holds. -/
theorem saveStats_stale_disk_regresses_counterexample :
    (lookupA (saveStatsModel (FIVE_HOURS_MS + 10) "2025-12-16"
        "2025-12-16T00:00:00.000Z" exMem1 (some exDisk1)).quotaTracking
      "a@x.com").map (fun t => t.windows.get .claude) =
      some (some ⟨1000, 100, 7⟩) ∧
    (lookupA (saveStatsModelDist "2025-12-16" "2025-12-16T00:00:00.000Z"
        exMem1).quotaTracking
      "a@x.com").map (fun t => t.windows.get .claude) =
      some (some ⟨1000, 100, 7⟩) ∧
    (lookupA exDisk1.quotaTracking "a@x.com").map
      (fun t => t.windows.get .claude) = some (some ⟨10, 150, 9⟩) ∧
    ¬ (150 ≤ (100 : Int)) := by
  refine ⟨by decide, by decide, by decide, by decide⟩

/-- C1 (amended): in the v1.1 `storage.ts` `saveStats`, for every
(account, group) window present both in memory and on disk *whose disk
copy is still valid — strictly less than five hours old at save time*
(the C10 gate), the save merges the re-read disk copy into the in-memory
one with `forceResync`, and the persisted `tokensUsed` and
`requestsCount` are each at least the disk values; in particular
in-memory 100 / still-valid disk 150 persists at least 150.  The newer
dist `saveStats` performs no disk re-read and no merge at all: the
persisted tracking for the account is exactly the in-memory one,
whatever the disk holds and at any disk-window age. -/
theorem saveStats_fresh_disk_never_regresses
    (now : Int) (cutK cutT : String) (mem disk : StatsData) (e : String)
    (g : ModelGroup) (mt dt : AccountQuotaTracking) (mw dw : QuotaWindow)
    (hm : lookupA mem.quotaTracking e = some mt)
    (hd : lookupA disk.quotaTracking e = some dt)
    (hmw : mt.windows.get g = some mw)
    (hdw : dt.windows.get g = some dw)
    (hfresh : now - dw.windowStart < FIVE_HOURS_MS) :
    (∃ t, lookupA (saveStatsModel now cutK cutT mem
        (some disk)).quotaTracking e = some t ∧
      t.windows.get g = some (forceResync mw dw) ∧
      dw.tokensUsed ≤ (forceResync mw dw).tokensUsed ∧
      dw.requestsCount ≤ (forceResync mw dw).requestsCount) ∧
    (lookupA (saveStatsModelDist cutK cutT mem).quotaTracking e = some mt ∧
      mt.windows.get g = some mw) := by
  refine ⟨⟨AccountQuotaTracking.mk (mergeWindowsDisk now mt.windows dt.windows),
    ?_, ?_, ?_, ?_⟩, ?_, hmw⟩
  · show lookupA (mergeQuotaTracking now
        (cleanupOldData cutK cutT mem).quotaTracking disk.quotaTracking) e = _
    rw [cleanupOldData_quotaTracking, lookupA_mergeQuotaTracking_mem now hm, hd]
  · show (mergeWindowsDisk now mt.windows dt.windows).get g = _
    rw [mergeWindowsDisk_get, hmw, hdw]
    show (if now - dw.windowStart < FIVE_HOURS_MS
      then some (forceResync mw dw) else some mw) = _
    rw [if_pos hfresh]
  · unfold forceResync
    dsimp only
    split_ifs <;> omega
  · unfold forceResync
    dsimp only
    split_ifs <;> omega
  · rw [saveStatsModelDist_quotaTracking]
    exact hm

/-- Witness for C1: in-memory window (tokensUsed 100, 7 requests), disk
window (tokensUsed 150, 9 requests) started one hour before the save
instant — the v1.1 merge persists 150 tokens and 9 requests, while the
dist save persists the in-memory window unchanged. -/
theorem saveStats_fresh_disk_never_regresses_witness :
    ((3600000 + 10 : Int) - 10 < FIVE_HOURS_MS) ∧
    ((∃ t, lookupA (saveStatsModel (3600000 + 10) "2025-12-16"
        "2025-12-16T00:00:00.000Z" exMem1 (some exDisk1)).quotaTracking
        "a@x.com" = some t ∧
      t.windows.get .claude = some (forceResync ⟨1000, 100, 7⟩ ⟨10, 150, 9⟩) ∧
      (150 : Int) ≤ (forceResync ⟨1000, 100, 7⟩ ⟨10, 150, 9⟩).tokensUsed ∧
      (9 : Int) ≤ (forceResync ⟨1000, 100, 7⟩ ⟨10, 150, 9⟩).requestsCount) ∧
    (lookupA (saveStatsModelDist "2025-12-16" "2025-12-16T00:00:00.000Z"
        exMem1).quotaTracking "a@x.com" =
      some ⟨⟨some ⟨1000, 100, 7⟩, none, none, none⟩⟩ ∧
      (AccountQuotaTracking.mk
        ⟨some ⟨1000, 100, 7⟩, none, none, none⟩).windows.get .claude =
        some ⟨1000, 100, 7⟩)) :=
  ⟨by decide,
   saveStats_fresh_disk_never_regresses (3600000 + 10) "2025-12-16"
     "2025-12-16T00:00:00.000Z" exMem1 exDisk1 "a@x.com" .claude
     ⟨⟨some ⟨1000, 100, 7⟩, none, none, none⟩⟩
     ⟨⟨some ⟨10, 150, 9⟩, none, none, none⟩⟩
     ⟨1000, 100, 7⟩ ⟨10, 150, 9⟩ (by decide) (by decide) rfl rfl (by decide)⟩

/-! ## Claim C7 — accounts unknown to memory are carried through -/

/-- In-memory stats for C7's witness: only account `a@x.com`. -/
def exMem7 : StatsData :=
  ⟨⟨0, 0, 0, 0, 0, 0⟩, ⟨0, []⟩, ⟨0, [], []⟩, [],
   [("a@x.com", ⟨⟨some ⟨1000, 100, 7⟩, none, none, none⟩⟩)]⟩

/-- On-disk stats for C7's witness: a second account `b@y.com` unknown to
memory. -/
def exDisk7 : StatsData :=
  ⟨⟨0, 0, 0, 0, 0, 0⟩, ⟨0, []⟩, ⟨0, [], []⟩, [],
   [("b@y.com", ⟨⟨some ⟨5, 999, 42⟩, some ⟨7, 11, 2⟩, none, none⟩⟩)]⟩

/-- C7 (counterexample): the newer dist `saveStats` writes the in-memory
map wholesale, re-reading nothing, so with only `a@x.com` in memory its
write carries no entry for `b@y.com` — yet the on-disk state it replaces
(`exDisk7`) holds that account's tracking.  A dist save therefore deletes
every account it does not know about, refuting the universal "a save
never deletes or alters accounts it does not know about". -/
theorem saveStatsDist_deletes_unknown_accounts_counterexample :
    lookupA exDisk7.quotaTracking "b@y.com" =
      some ⟨⟨some ⟨5, 999, 42⟩, some ⟨7, 11, 2⟩, none, none⟩⟩ ∧
    lookupA exMem7.quotaTracking "b@y.com" = none ∧
    lookupA (saveStatsModelDist "2025-12-16" "2025-12-16T00:00:00.000Z"
      exMem7).quotaTracking "b@y.com" = none := by
  refine ⟨by decide, by decide, by decide⟩

/-- C7 (amended): in the v1.1 `storage.ts` `saveStats`, every account
email present in the on-disk `quotaTracking` but absent from the
in-memory map is written out with its tracking data unmodified.  The
newer dist `saveStats` writes the in-memory map wholesale without
re-reading the disk, so an account present only on disk is absent from —
deleted by — every dist save. -/
theorem saveStats_carries_unknown_accounts
    (now : Int) (cutK cutT : String) (mem disk : StatsData) (e : String)
    (dt : AccountQuotaTracking)
    (hm : lookupA mem.quotaTracking e = none)
    (hd : lookupA disk.quotaTracking e = some dt) :
    lookupA (saveStatsModel now cutK cutT mem
      (some disk)).quotaTracking e = some dt ∧
    lookupA (saveStatsModelDist cutK cutT mem).quotaTracking e = none := by
  constructor
  · show lookupA (mergeQuotaTracking now
        (cleanupOldData cutK cutT mem).quotaTracking disk.quotaTracking) e = _
    rw [cleanupOldData_quotaTracking, lookupA_mergeQuotaTracking_disk now hm, hd]
  · rw [saveStatsModelDist_quotaTracking]
    exact hm

/-- Witness for C7: account `b@y.com`, on disk only, survives the v1.1
save byte-for-byte and is absent from the dist save's output. -/
theorem saveStats_carries_unknown_accounts_witness :
    lookupA exMem7.quotaTracking "b@y.com" = none ∧
    (lookupA (saveStatsModel 12345 "2025-12-16" "2025-12-16T00:00:00.000Z"
        exMem7 (some exDisk7)).quotaTracking "b@y.com" =
      some ⟨⟨some ⟨5, 999, 42⟩, some ⟨7, 11, 2⟩, none, none⟩⟩ ∧
    lookupA (saveStatsModelDist "2025-12-16" "2025-12-16T00:00:00.000Z"
      exMem7).quotaTracking "b@y.com" = none) :=
  ⟨by decide,
   saveStats_carries_unknown_accounts 12345 "2025-12-16"
     "2025-12-16T00:00:00.000Z" exMem7 exDisk7 "b@y.com" _ (by decide) (by decide)⟩

/-! ## Claim C10 — the implicit five-hour validity gate -/

/-- On-disk stats for C10's witness: account `a@x.com` with a stale
claude window (also present in memory) and a stale disk-only pro
window. -/
def exDisk10 : StatsData :=
  ⟨⟨0, 0, 0, 0, 0, 0⟩, ⟨0, []⟩, ⟨0, [], []⟩, [],
   [("a@x.com", ⟨⟨some ⟨10, 150, 9⟩, some ⟨7, 11, 2⟩, none, none⟩⟩)]⟩

/-- C10: both reconciliation paths silently age-gate the disk copy even
though the specified merge rule states no age restriction.  With a disk
window five hours old or more at reconciliation time: (a) `saveStats`
leaves a present in-memory window exactly as it was — neither
`windowStart` nor the counters are merged; (b) a disk-only window for a
group the in-memory account lacks is dropped from the written file rather
than carried through; (c) `recordMessage` refuses to adopt a disk-only
window and starts a fresh window `(now, tokens, 1)` instead. -/
theorem five_hour_validity_gate
    (now : Int) (cutK cutT : String) (mem disk : StatsData) (e : String)
    (g : ModelGroup) (mt dt : AccountQuotaTracking) (dw : QuotaWindow)
    (hm : lookupA mem.quotaTracking e = some mt)
    (hd : lookupA disk.quotaTracking e = some dt)
    (hdw : dt.windows.get g = some dw)
    (hstale : FIVE_HOURS_MS ≤ now - dw.windowStart) :
    (∀ mw, mt.windows.get g = some mw →
      ∃ t, lookupA (saveStatsModel now cutK cutT mem
          (some disk)).quotaTracking e = some t ∧ t.windows.get g = some mw) ∧
    (mt.windows.get g = none →
      ∃ t, lookupA (saveStatsModel now cutK cutT mem
          (some disk)).quotaTracking e = some t ∧ t.windows.get g = none) ∧
    (∀ tokens, updateQuotaWindow none (some dw) tokens now = ⟨now, tokens, 1⟩) := by
  have h5 : FIVE_HOURS_MS = 18000000 := by norm_num [FIVE_HOURS_MS]
  have hlook : lookupA (saveStatsModel now cutK cutT mem
      (some disk)).quotaTracking e =
      some (AccountQuotaTracking.mk (mergeWindowsDisk now mt.windows dt.windows)) := by
    show lookupA (mergeQuotaTracking now
        (cleanupOldData cutK cutT mem).quotaTracking disk.quotaTracking) e = _
    rw [cleanupOldData_quotaTracking, lookupA_mergeQuotaTracking_mem now hm, hd]
  refine ⟨fun mw hmw => ⟨_, hlook, ?_⟩, fun hmw => ⟨_, hlook, ?_⟩, fun tokens => ?_⟩
  · show (mergeWindowsDisk now mt.windows dt.windows).get g = some mw
    rw [mergeWindowsDisk_get, hmw, hdw]
    show (if now - dw.windowStart < FIVE_HOURS_MS
      then some (forceResync mw dw) else some mw) = some mw
    rw [if_neg (by omega)]
  · show (mergeWindowsDisk now mt.windows dt.windows).get g = none
    rw [mergeWindowsDisk_get, hmw, hdw]
    show (if now - dw.windowStart < FIVE_HOURS_MS then some dw else none) = none
    rw [if_neg (by omega)]
  · simp only [updateQuotaWindow]
    split_ifs <;> first | rfl | omega

/-- Witness for C10: save instant `FIVE_HOURS_MS + 10`, disk windows
started at epoch-ms 10 (claude, also in memory) and 7 (pro, disk-only):
the claude window persists untouched, the pro window is dropped, and
`recordMessage` with only the stale disk claude window starts a fresh
window. -/
theorem five_hour_validity_gate_witness :
    (FIVE_HOURS_MS ≤ (FIVE_HOURS_MS + 10) - 10) ∧
    (∃ t, lookupA (saveStatsModel (FIVE_HOURS_MS + 10) "2025-12-16"
        "2025-12-16T00:00:00.000Z" exMem7 (some exDisk10)).quotaTracking
        "a@x.com" = some t ∧ t.windows.get .claude = some ⟨1000, 100, 7⟩) ∧
    (∃ t, lookupA (saveStatsModel (FIVE_HOURS_MS + 10) "2025-12-16"
        "2025-12-16T00:00:00.000Z" exMem7 (some exDisk10)).quotaTracking
        "a@x.com" = some t ∧ t.windows.get .pro = none) ∧
    updateQuotaWindow none (some ⟨10, 150, 9⟩) 33 (FIVE_HOURS_MS + 10) =
      ⟨FIVE_HOURS_MS + 10, 33, 1⟩ := by
  refine ⟨by decide, ?_, ?_, ?_⟩
  · exact (five_hour_validity_gate (FIVE_HOURS_MS + 10) "2025-12-16"
      "2025-12-16T00:00:00.000Z" exMem7 exDisk10 "a@x.com" .claude
      ⟨⟨some ⟨1000, 100, 7⟩, none, none, none⟩⟩
      ⟨⟨some ⟨10, 150, 9⟩, some ⟨7, 11, 2⟩, none, none⟩⟩
      ⟨10, 150, 9⟩ (by decide) (by decide) rfl (by decide)).1
      ⟨1000, 100, 7⟩ rfl
  · exact (five_hour_validity_gate (FIVE_HOURS_MS + 10) "2025-12-16"
      "2025-12-16T00:00:00.000Z" exMem7 exDisk10 "a@x.com" .pro
      ⟨⟨some ⟨1000, 100, 7⟩, none, none, none⟩⟩
      ⟨⟨some ⟨10, 150, 9⟩, some ⟨7, 11, 2⟩, none, none⟩⟩
      ⟨7, 11, 2⟩ (by decide) (by decide) rfl (by decide)).2.1 rfl
  · exact (five_hour_validity_gate (FIVE_HOURS_MS + 10) "2025-12-16"
      "2025-12-16T00:00:00.000Z" exMem7 exDisk10 "a@x.com" .claude
      ⟨⟨some ⟨1000, 100, 7⟩, none, none, none⟩⟩
      ⟨⟨some ⟨10, 150, 9⟩, some ⟨7, 11, 2⟩, none, none⟩⟩
      ⟨10, 150, 9⟩ (by decide) (by decide) rfl (by decide)).2.2 33

/-! ## Claim C3 — `recordMessage` window lifecycle -/

/-- C3 (counterexample): a usage event landing exactly at the five-hour
boundary (`now − windowStart = FIVE_HOURS_MS`, i.e. at the boundary and
hence "at or past" it) does *not* reset the window — the code's expiry
test is strict (`windowAge > FIVE_HOURS_MS`), so the event accumulates
onto the old window and `requestsCount` becomes 8, not 1. -/
theorem recordMessage_boundary_counterexample :
    (FIVE_HOURS_MS + 1 : Int) - 1 = FIVE_HOURS_MS ∧
    updateQuotaWindow (some ⟨1, 100, 7⟩) none 50 (FIVE_HOURS_MS + 1) =
      ⟨1, 150, 8⟩ ∧
    (updateQuotaWindow (some ⟨1, 100, 7⟩) none 50
      (FIVE_HOURS_MS + 1)).requestsCount ≠ 1 := by
  refine ⟨by decide, by decide, by decide⟩

/-- C3 (amended): for a usage event with no disk-side copy of the window:
no existing window creates `(now, tokens, 1)`; an existing window with
`now − windowStart` *strictly greater* than `FIVE_HOURS_MS` is discarded
and replaced by exactly that fresh window, so a call strictly past the
five-hour boundary always yields `requestsCount = 1` regardless of prior
accumulation; an existing window aged five hours *or less* (including
exactly at the boundary) accumulates `tokensUsed += tokens`,
`requestsCount += 1` with `windowStart` unchanged.  Age is measured from
`windowStart` only — no last-activity input exists. -/
theorem recordMessage_window_lifecycle (tokens now : Int) :
    updateQuotaWindow none none tokens now = ⟨now, tokens, 1⟩ ∧
    (∀ m : QuotaWindow, now - m.windowStart > FIVE_HOURS_MS →
      updateQuotaWindow (some m) none tokens now = ⟨now, tokens, 1⟩) ∧
    (∀ m : QuotaWindow, now - m.windowStart ≤ FIVE_HOURS_MS →
      updateQuotaWindow (some m) none tokens now =
        ⟨m.windowStart, m.tokensUsed + tokens, m.requestsCount + 1⟩) := by
  refine ⟨?_, fun m hm => ?_, fun m hm => ?_⟩
  · simp only [updateQuotaWindow]
    split_ifs <;> rfl
  · simp only [updateQuotaWindow]
    split_ifs
    rfl
  · simp only [updateQuotaWindow]
    split_ifs with h
    · omega
    · rfl

/-- Witness for C3: one event strictly past the boundary resets to
`(now, 50, 1)`; one event exactly at the boundary accumulates to
`(1, 150, 8)`. -/
theorem recordMessage_window_lifecycle_witness :
    ((FIVE_HOURS_MS + 2 : Int) - 1 > FIVE_HOURS_MS ∧
      updateQuotaWindow (some ⟨1, 100, 7⟩) none 50 (FIVE_HOURS_MS + 2) =
        ⟨FIVE_HOURS_MS + 2, 50, 1⟩) ∧
    ((FIVE_HOURS_MS : Int) - 1 ≤ FIVE_HOURS_MS ∧
      updateQuotaWindow (some ⟨1, 100, 7⟩) none 50 FIVE_HOURS_MS =
        ⟨1, 150, 8⟩) :=
  ⟨⟨by decide, (recordMessage_window_lifecycle 50 (FIVE_HOURS_MS + 2)).2.1
      ⟨1, 100, 7⟩ (by decide)⟩,
   ⟨by decide, (recordMessage_window_lifecycle 50 FIVE_HOURS_MS).2.2
      ⟨1, 100, 7⟩ (by decide)⟩⟩

/-! ## Claim C2 — server-cycle force-reset on every successful poll -/

/-- C2: on every successful poll, for every model group the server
reported (under the `serverGroupMap` name mapping, with a `reset_time`,
and uniquely targeting its local group) that has a local window for the
active account: if the window's `windowStart` is strictly before
`serverCycleStart = reset_time − FIVE_HOURS_MS` the window becomes
`(serverCycleStart, 0, 0)`; if it is at or after `serverCycleStart` it is
unchanged.  The quantification over the reported group list is what makes
the check apply to all tracked groups on every poll, not only the group
of the currently active model. -/
theorem fetchServerQuota_cycle_reset
    (now : Int) (st : CollectorQuotaState) (j : QuotaJson) (e : String)
    (t : AccountQuotaTracking) (gs : List ServerQuotaGroup)
    (sg : ServerQuotaGroup) (g : ModelGroup) (r : Int) (w : QuotaWindow)
    (hje : j.email = some e) (hne : e ≠ "") (hjg : j.groups = some gs)
    (ht : lookupA st.quotaTracking e = some t)
    (hin : sg ∈ gs) (hmap : serverGroupMap sg.name = some g)
    (hr : sg.reset_time = some r) (hw : t.windows.get g = some w)
    (huniq : ∀ sg' ∈ gs, serverGroupMap sg'.name = some g → sg' = sg) :
    ∃ t', lookupA (fetchServerQuotaTs now st
        (.parsed j)).quotaTracking e = some t' ∧
      t'.windows.get g = some (if w.windowStart < r - FIVE_HOURS_MS
        then ⟨r - FIVE_HOURS_MS, 0, 0⟩ else w) := by
  have hq : (fetchServerQuotaTs now st (.parsed j)).quotaTracking =
      updateA st.quotaTracking e
        (AccountQuotaTracking.mk (applyServerResets t.windows gs)) := by
    show (fetchQuotaSuccess now st j).quotaTracking = _
    unfold fetchQuotaSuccess
    rw [hje]
    show (if e = "" then st.quotaTracking
      else match lookupA st.quotaTracking e with
        | some t => updateA st.quotaTracking e
            (AccountQuotaTracking.mk (applyServerResets t.windows (j.groups.getD [])))
        | none => st.quotaTracking) = _
    rw [if_neg hne, ht, hjg]
    rfl
  refine ⟨AccountQuotaTracking.mk (applyServerResets t.windows gs), ?_, ?_⟩
  · rw [hq]
    exact lookupA_updateA_some _ ht
  · show (applyServerResets t.windows gs).get g = _
    rw [applyServerResets_get_main hmap hr gs t.windows hin huniq hw]
    rfl

/-- Poll state for C2's witness: the active account tracks a claude
window started at epoch-ms 10 with accumulated usage. -/
def exState2 : CollectorQuotaState :=
  ⟨none, [("a@x.com", ⟨⟨some ⟨10, 500, 5⟩, none, none, none⟩⟩)]⟩

/-- Poll payload for C2's witness: the server reports group `Claude` with
`reset_time` six hours after the window start, so
`serverCycleStart = 10 + 3600000` postdates `windowStart = 10`. -/
def exJson2 : QuotaJson :=
  ⟨some "a@x.com", some [⟨"Claude", 80, some (21600010 : Int), "6h0m"⟩],
   some false, none⟩

/-- Witness for C2: the reported six-hour reset time forces the local
claude window to `(serverCycleStart, 0, 0)`. -/
theorem fetchServerQuota_cycle_reset_witness :
    ("a@x.com" : String) ≠ "" ∧
    ∃ t', lookupA (fetchServerQuotaTs 77 exState2
        (.parsed exJson2)).quotaTracking "a@x.com" = some t' ∧
      t'.windows.get .claude = some (if (10 : Int) < 21600010 - FIVE_HOURS_MS
        then ⟨21600010 - FIVE_HOURS_MS, 0, 0⟩ else ⟨10, 500, 5⟩) := by
  refine ⟨by decide, fetchServerQuota_cycle_reset 77 exState2 exJson2 "a@x.com"
    ⟨⟨some ⟨10, 500, 5⟩, none, none, none⟩⟩
    [⟨"Claude", 80, some (21600010 : Int), "6h0m"⟩]
    ⟨"Claude", 80, some (21600010 : Int), "6h0m"⟩ .claude 21600010 ⟨10, 500, 5⟩
    rfl (by decide) rfl (by decide) (List.mem_singleton.mpr rfl) (by decide) rfl
    rfl ?_⟩
  intro sg' hmem _
  simpa using hmem

/-! ## Claim C9 — retention pruning -/

theorem lookupA_filter_lt_none {α : Type} {l : List (String × α)}
    {key cutoffKey : String} (h : key < cutoffKey) :
    lookupA (l.filter fun kv => ¬ kv.1 < cutoffKey) key = none := by
  induction l with
  | nil => rfl
  | cons kv t ih =>
    obtain ⟨k, v⟩ := kv
    rw [List.filter_cons]
    by_cases hkc : k < cutoffKey
    · rw [if_neg (by simpa using hkc)]
      exact ih
    · rw [if_pos (by simpa using hkc)]
      have hk : ¬ k = key := fun he => hkc (he ▸ h)
      show (if k = key then some v
        else lookupA (t.filter fun kv => ¬ kv.1 < cutoffKey) key) = none
      rw [if_neg hk]
      exact ih

/-- The `daily` map written by `saveStats` is the pruned one, whichever
branch the disk re-read takes. -/
theorem saveStatsModel_daily (now : Int) (cutK cutT : String)
    (mem : StatsData) (disk : Option StatsData) :
    (saveStatsModel now cutK cutT mem disk).daily =
      (cleanupOldData cutK cutT mem).daily := by
  cases disk <;> rfl

/-- C9: retention pruning.  (a) After any `saveStats`, no daily bucket
keyed strictly below the cutoff key (the ISO date seven days before
today, so any bucket dated eight or more days back) remains in the
written state.  (b) After `addRateLimitEntry`, the rate-limit history
holds at most 50 entries, and a history of 60 entries becomes exactly the
50 most recent (the new entry plus the newest 49, oldest evicted).
(c) The same for `addErrorEntry` and the error history. -/
theorem retention_pruning (now : Int) (cutK cutT today key : String)
    (mem s : StatsData) (disk : Option StatsData)
    (entry : RateLimitEntry) (errEntry : ErrorEntry) :
    (key < cutK →
      lookupA (saveStatsModel now cutK cutT mem disk).daily key = none) ∧
    ((addRateLimitEntry today s entry).rateLimits.history.length ≤ 50 ∧
     (s.rateLimits.history.length = 60 →
       (addRateLimitEntry today s entry).rateLimits.history =
         (entry :: s.rateLimits.history).take 50)) ∧
    ((addErrorEntry today s errEntry).errors.history.length ≤ 50 ∧
     (s.errors.history.length = 60 →
       (addErrorEntry today s errEntry).errors.history =
         (errEntry :: s.errors.history).take 50)) := by
  refine ⟨fun hk => ?_, ⟨?_, fun h60 => ?_⟩, ⟨?_, fun h60 => ?_⟩⟩
  · rw [saveStatsModel_daily]
    exact lookupA_filter_lt_none hk
  · simp only [addRateLimitEntry]
    split_ifs with h
    · simp only [List.length_take]
      omega
    · simp only [List.length_cons] at h ⊢
      omega
  · simp only [addRateLimitEntry]
    rw [if_pos (by simp [h60])]
  · simp only [addErrorEntry]
    split_ifs with h
    · simp only [List.length_take]
      omega
    · simp only [List.length_cons] at h ⊢
      omega
  · simp only [addErrorEntry]
    rw [if_pos (by simp [h60])]

/-- A rate-limit entry used by C9's witness. -/
def exEntry9 : RateLimitEntry :=
  ⟨"2025-12-23T10:00:00.000Z", "a@x.com", "2025-12-23T11:00:00.000Z", none⟩

/-- An error entry used by C9's witness. -/
def exErr9 : ErrorEntry := ⟨"2025-12-23T10:00:00.000Z", 429, "google/claude", "quota"⟩

/-- Stats for C9's witness: a daily bucket dated eight days before
2025-12-23 and sixty-entry histories. -/
def exStats9 : StatsData :=
  ⟨⟨0, 0, 0, 0, 0, 0⟩, ⟨60, List.replicate 60 exEntry9⟩,
   ⟨60, [], List.replicate 60 exErr9⟩,
   [("2025-12-15", emptyDailyStats)], []⟩

/-- Witness for C9 with today = 2025-12-23 (cutoff key 2025-12-16): the
bucket dated 2025-12-15 — eight days back — is gone from the written
state, and both sixty-entry histories truncate to the 50 most recent. -/
theorem retention_pruning_witness :
    (("2025-12-15" : String) < "2025-12-16" ∧
      lookupA (saveStatsModel 0 "2025-12-16" "2025-12-16T00:00:00.000Z"
        exStats9 none).daily "2025-12-15" = none) ∧
    (exStats9.rateLimits.history.length = 60 ∧
      (addRateLimitEntry "2025-12-23" exStats9 exEntry9).rateLimits.history =
        (exEntry9 :: exStats9.rateLimits.history).take 50) ∧
    (exStats9.errors.history.length = 60 ∧
      (addErrorEntry "2025-12-23" exStats9 exErr9).errors.history =
        (exErr9 :: exStats9.errors.history).take 50) := by
  have h := retention_pruning 0 "2025-12-16" "2025-12-16T00:00:00.000Z"
    "2025-12-23" "2025-12-15" exStats9 exStats9 none exEntry9 exErr9
  have hlt : ("2025-12-15" : String) < "2025-12-16" := by
    rw [String.lt_iff_toList_lt]
    decide
  exact ⟨⟨hlt, h.1 hlt⟩,
    ⟨by decide, h.2.1.2 (by decide)⟩,
    ⟨by decide, h.2.2.2 (by decide)⟩⟩

end AntigravityStats
